import Mathlib

/-
Verification of the elysium-cloud-api telemetry service (src/app.py):
timestamp normalization (`parse_timestamp`), optional-field coalescing
(`to_float_or_none`), the in-memory reading store with sliding-window
retention (`prune_history`), and the `/ingest`, `/latest`, `/history`
routes.

Modelling conventions:
  - A Python `datetime` is a wall-clock value (seconds, as an integer)
    together with an optional UTC offset in seconds (`none` = naive,
    mirroring `tzinfo is None`).  The absolute instant of an aware
    datetime is `wall - offset`.
  - Timestamp inputs (`Any` in the code) are a tagged union: `None`, a
    `datetime` object, a parseable ISO string (represented by the value
    `datetime.fromisoformat` would produce, plus its timezone mark:
    trailing `Z`, explicit offset, or naive), an unparseable string, or
    a value of an unsupported type.
  - Python floats are modelled as rationals; `float(s)` on a string is
    an abstract parameter `pf : String → Option ℚ` (`none` = the call
    raises), since its grammar is standard-library behaviour, not code
    of this repository.
  - `timedelta(days=d)` is `d * 86400` seconds and `timedelta(hours=h)`
    is `h * 3600` seconds.
  - The request body passes through pydantic validation of the
    `IngestPayload` model before the handler runs: the `Any`-typed
    timestamp passes through untouched, while every `Optional[float]`
    sensor field must be null or coerce to a number, otherwise FastAPI
    answers 422 and the handler is never entered (`validate_payload`,
    `ingest_route`).
-/

deriving instance DecidableEq for Except

namespace ElysiumCloud

/-- A Python `datetime`: wall-clock seconds plus an optional UTC offset in
seconds (`none` models a naive datetime, i.e. `tzinfo is None`). -/
structure PyDatetime where
  wall : Int
  off : Option Int
deriving DecidableEq, Repr

/-- The absolute instant (seconds) an aware datetime denotes: wall minus
offset.  Only applied to aware values in this development (the code's
comment: all stored timestamps are forced to tz-aware UTC). -/
def absTime (d : PyDatetime) : Int :=
  d.wall - d.off.getD 0

/-- The timezone mark carried by an ISO-8601 timestamp string: a trailing
literal `Z`, an explicit numeric offset (in seconds), or no timezone
information at all (naive). -/
inductive TzMark where
  | zSuffix : TzMark
  | withOffset : Int → TzMark
  | naive : TzMark
deriving DecidableEq, Repr

/-- The `Any`-typed timestamp input of `parse_timestamp`: `None`, a native
`datetime`, a parseable ISO string (wall value and timezone mark), an
unparseable string, or a value of any other type (identified by its type
name). -/
inductive RawTS where
  | null : RawTS
  | pydt : Int → Option Int → RawTS
  | isoStr : Int → TzMark → RawTS
  | badStr : String → RawTS
  | otherType : String → RawTS
deriving DecidableEq, Repr

/-- Value-level model of `datetime.fromisoformat` on a parseable string:
an explicit offset yields an aware datetime, a naive string yields a naive
datetime.  (The `Z` case never reaches it in `parse_timestamp`, which
rewrites a trailing `Z` to `+00:00` first; it is given the post-3.11
stdlib meaning for totality.) -/
def fromisoformat (w : Int) (tz : TzMark) : PyDatetime :=
  match tz with
  | .zSuffix => ⟨w, some 0⟩
  | .withOffset m => ⟨w, some m⟩
  | .naive => ⟨w, none⟩

/-- The tz-fixup at the end of `parse_timestamp`: a naive datetime gets
`replace(tzinfo=timezone.utc)` (same wall clock, offset 0); an aware one
gets `astimezone(timezone.utc)` (same instant, offset 0). -/
def toUtc (d : PyDatetime) : PyDatetime :=
  match d.off with
  | none => ⟨d.wall, some 0⟩
  | some m => ⟨d.wall - m, some 0⟩

/-- `parse_timestamp` (src/app.py lines 25-54): `None` and unsupported
types raise `ValueError`; a string with a trailing `Z` has the `Z`
rewritten to a `+00:00` offset before `datetime.fromisoformat`; the
resulting datetime is then forced to tz-aware UTC. -/
def parse_timestamp (ts : RawTS) : Except String PyDatetime :=
  match ts with
  | .null => .error "timestamp missing"
  | .pydt w off => .ok (toUtc ⟨w, off⟩)
  | .isoStr w tz =>
      -- s.endswith("Z") → s[:-1] + "+00:00"
      let tz' := match tz with
        | .zSuffix => .withOffset 0
        | t => t
      .ok (toUtc (fromisoformat w tz'))
  | .badStr s => .error ("Invalid isoformat string: " ++ s)
  | .otherType t => .error ("unsupported timestamp type: " ++ t)

/-- `dt.isoformat()` fed back in as a timestamp input: an aware datetime
serializes with its explicit offset, a naive one with no offset. -/
def PyDatetime.isoformat (d : PyDatetime) : RawTS :=
  match d.off with
  | some m => .isoStr d.wall (.withOffset m)
  | none => .isoStr d.wall .naive

/-- An `Any`-typed optional sensor value as seen by `to_float_or_none`:
`None`, a string, or a number. -/
inductive Val where
  | vnull : Val
  | vstr : String → Val
  | vnum : ℚ → Val
deriving DecidableEq, Repr

/-- `to_float_or_none` (src/app.py lines 57-65), parametrized by `pf`, the
string branch of Python `float` (`none` = the conversion raises): `None`
and the empty string map to `None`; any other string is converted if
possible; a number converts to itself; a failed conversion maps to `None`
rather than raising. -/
def to_float_or_none (pf : String → Option ℚ) (x : Val) : Option ℚ :=
  match x with
  | .vnull => none
  | .vstr s => if s = "" then none else pf s
  | .vnum q => some q

/-- The canonical-then-alias coalescing pattern of the ingest handler
(src/app.py lines 146-156): take the canonical field if it converts,
otherwise the legacy alias. -/
def coalesce (pf : String → Option ℚ) (canonical legacy : Val) : Option ℚ :=
  match to_float_or_none pf canonical with
  | some v => some v
  | none => to_float_or_none pf legacy

/-- The runtime value of a validated `Optional[float]` field as it reaches
`to_float_or_none` inside the handler: `None` or a float. -/
def Val.ofOptFloat : Option ℚ → Val
  | none => .vnull
  | some q => .vnum q

/-- The raw JSON body of a POST /ingest request, before pydantic
validation: the timestamp and every optional sensor field are arbitrary
JSON values. -/
structure RawPayload where
  timestamp : RawTS
  temperature_f : Val
  temp_f : Val
  tds_us_cm : Val
  tds : Val
  do_mg_per_l : Val
  dissolved_oxygen : Val
  gh : Val
  kh : Val
  light_lux : Val
deriving DecidableEq, Repr

/-- The validated `IngestPayload` model (src/app.py lines 71-85) as the
handler receives it: `timestamp` is declared `Any` and passes through
pydantic untouched, so it can still be anything; every sensor field is
declared `Optional[float]`, so by the time the handler runs it is a float
or `None`. -/
structure IngestPayload where
  timestamp : RawTS
  temperature_f : Option ℚ
  temp_f : Option ℚ
  tds_us_cm : Option ℚ
  tds : Option ℚ
  do_mg_per_l : Option ℚ
  dissolved_oxygen : Option ℚ
  gh : Option ℚ
  kh : Option ℚ
  light_lux : Option ℚ
deriving DecidableEq, Repr

/-- Pydantic v2 validation of one `Optional[float]` field against a raw
JSON value: null and numbers are accepted; a non-empty string is accepted
exactly when it coerces to a number (lax mode, modelled by the same
abstract string-to-number parse `pf` as Python `float`); the empty string
and malformed text are rejected with a validation error. -/
def validate_opt_float (pf : String → Option ℚ) (x : Val) :
    Except String (Option ℚ) :=
  match x with
  | .vnull => .ok none
  | .vnum q => .ok (some q)
  | .vstr s =>
      if s = "" then .error "Input should be a valid number"
      else
        match pf s with
        | some q => .ok (some q)
        | none => .error "Input should be a valid number"

/-- FastAPI/pydantic validation of the whole request body against the
`IngestPayload` model: every `Optional[float]` sensor field must validate,
otherwise FastAPI answers 422 and the `ingest` handler never runs. -/
def validate_payload (pf : String → Option ℚ) (b : RawPayload) :
    Except String IngestPayload := do
  let temperature_f ← validate_opt_float pf b.temperature_f
  let temp_f ← validate_opt_float pf b.temp_f
  let tds_us_cm ← validate_opt_float pf b.tds_us_cm
  let tds ← validate_opt_float pf b.tds
  let do_mg_per_l ← validate_opt_float pf b.do_mg_per_l
  let dissolved_oxygen ← validate_opt_float pf b.dissolved_oxygen
  let gh ← validate_opt_float pf b.gh
  let kh ← validate_opt_float pf b.kh
  let light_lux ← validate_opt_float pf b.light_lux
  return ⟨b.timestamp, temperature_f, temp_f, tds_us_cm, tds, do_mg_per_l,
    dissolved_oxygen, gh, kh, light_lux⟩

/-- A stored `Reading` (src/app.py lines 88-95): a timestamp plus six
optional sensor values. -/
structure Reading where
  timestamp : PyDatetime
  temperature_f : Option ℚ
  tds_us_cm : Option ℚ
  do_mg_per_l : Option ℚ
  gh : Option ℚ
  kh : Option ℚ
  light_lux : Option ℚ
deriving DecidableEq, Repr

/-- The module-level mutable state: `_history` and `_latest`
(src/app.py lines 112-113). -/
structure St where
  hist : List Reading
  latest : Option Reading
deriving DecidableEq, Repr

/-- `prune_history` (src/app.py lines 116-120): keep exactly the readings
whose timestamp is at or after `now - timedelta(days=historyDays)`. -/
def prune_history (historyDays : Int) (now : Int) (hist : List Reading) :
    List Reading :=
  let cutoff := now - historyDays * 86400
  hist.filter (fun r => cutoff ≤ absTime r.timestamp)

/-- The two mutation statements `_latest = reading; _history.append(reading)`
(src/app.py lines 168-169): the reading goes to the end of the ordered
history and becomes the latest. -/
def store_append (s : St) (r : Reading) : St :=
  ⟨s.hist ++ [r], some r⟩

/-- The `Reading(...)` construction inside `ingest` (src/app.py lines
158-166): temperature, TDS and dissolved oxygen coalesce a canonical name
with one legacy alias; `gh`, `kh`, `light_lux` have no alias. -/
def mkReading (pf : String → Option ℚ) (p : IngestPayload)
    (ts : PyDatetime) : Reading :=
  ⟨ts,
   coalesce pf (Val.ofOptFloat p.temperature_f) (Val.ofOptFloat p.temp_f),
   coalesce pf (Val.ofOptFloat p.tds_us_cm) (Val.ofOptFloat p.tds),
   coalesce pf (Val.ofOptFloat p.do_mg_per_l)
     (Val.ofOptFloat p.dissolved_oxygen),
   to_float_or_none pf (Val.ofOptFloat p.gh),
   to_float_or_none pf (Val.ofOptFloat p.kh),
   to_float_or_none pf (Val.ofOptFloat p.light_lux)⟩

/-- The success body of `/ingest` (src/app.py lines 173-178):
`ok`, `stored`, the just-stored reading, and the post-prune history count. -/
structure IngestResponse where
  ok : Bool
  stored : Nat
  latest : Reading
  count : Nat
deriving DecidableEq, Repr

/-- The `/ingest` handler (src/app.py lines 136-178): a timestamp that
fails to parse raises `HTTPException(400, "Bad timestamp: ...")` before any
mutation; otherwise the reading is built, `_latest` is set, the reading is
appended, and the history is pruned at the current time. -/
def ingest (pf : String → Option ℚ) (historyDays : Int) (now : Int)
    (p : IngestPayload) (s : St) :
    Except (Nat × String) IngestResponse × St :=
  match parse_timestamp p.timestamp with
  | .error e => (.error (400, "Bad timestamp: " ++ e), s)
  | .ok ts =>
      let reading := mkReading pf p ts
      let s1 := store_append s reading
      let hist2 := prune_history historyDays now s1.hist
      (.ok ⟨true, 1, reading, hist2.length⟩, ⟨hist2, s1.latest⟩)

/-- The full POST /ingest surface: pydantic body validation first (a
failing optional field is answered 422, the handler never runs and the
state is unchanged), then the `ingest` handler. -/
def ingest_route (pf : String → Option ℚ) (historyDays now : Int)
    (b : RawPayload) (s : St) :
    Except (Nat × String) IngestResponse × St :=
  match validate_payload pf b with
  | .error e => (.error (422, e), s)
  | .ok p => ingest pf historyDays now p s

/-- A JSON value as produced by `model_dump(mode="json")`: null, a number,
or a serialized datetime (kept structured rather than as text). -/
inductive JsonVal where
  | null : JsonVal
  | jnum : ℚ → JsonVal
  | jdt : PyDatetime → JsonVal
deriving DecidableEq, Repr

/-- Serialization of an optional float field: absent becomes null. -/
def optJson (x : Option ℚ) : JsonVal :=
  match x with
  | none => .null
  | some q => .jnum q

/-- `reading.model_dump(mode="json")`: all seven `Reading` fields, in
declaration order, absent optional fields as null. -/
def readingJson (r : Reading) : List (String × JsonVal) :=
  [("timestamp", .jdt r.timestamp),
   ("temperature_f", optJson r.temperature_f),
   ("tds_us_cm", optJson r.tds_us_cm),
   ("do_mg_per_l", optJson r.do_mg_per_l),
   ("gh", optJson r.gh),
   ("kh", optJson r.kh),
   ("light_lux", optJson r.light_lux)]

/-- The `/latest` handler (src/app.py lines 181-185): with no reading yet
it returns a literal four-key all-null dict; otherwise the latest reading's
JSON dump. -/
def latest_route (s : St) : List (String × JsonVal) :=
  match s.latest with
  | none =>
      [("timestamp", .null), ("temperature_f", .null),
       ("tds_us_cm", .null), ("do_mg_per_l", .null)]
  | some r => readingJson r

/-- The filter step of `/history` (src/app.py lines 198-201): keep readings
at or after `now - timedelta(hours=max(1, hours))`. -/
def history_filtered (now : Int) (hours : Int) (hist : List Reading) :
    List Reading :=
  let cutoff := now - 3600 * max 1 hours
  hist.filter (fun r => cutoff ≤ absTime r.timestamp)

/-- The `/history` handler's row selection (src/app.py lines 188-202):
filter to the window, then `rows[-max(1, min(limit, 20000)):]` — the tail
of the filtered list, capped. -/
def history_rows (now : Int) (hours : Int) (limit : Int)
    (hist : List Reading) : List Reading :=
  let rows := history_filtered now hours hist
  rows.drop (rows.length - (max 1 (min limit 20000)).toNat)

/-- The `/history` response body: the selected rows, serialized. -/
def history_route (now : Int) (hours : Int) (limit : Int)
    (hist : List Reading) : List (List (String × JsonVal)) :=
  (history_rows now hours limit hist).map readingJson

/-- `/history` called with no query parameters: the declaration defaults
`hours: int = 24, limit: int = 5000` (src/app.py lines 190-191). -/
def history_route_defaults (now : Int) (hist : List Reading) :
    List (List (String × JsonVal)) :=
  history_route now 24 5000 hist

/-- A degenerate `float`-conversion model for concrete test points: every
string fails to convert. -/
def pf0 : String → Option ℚ := fun _ => none

/-- A validated payload with the given timestamp and every optional sensor
field absent. -/
def mkPayload (t : RawTS) : IngestPayload :=
  ⟨t, none, none, none, none, none, none, none, none, none⟩

/-- A reading at instant 0 UTC with no sensor values. -/
def sampleReading0 : Reading :=
  ⟨⟨0, some 0⟩, none, none, none, none, none, none⟩

/-- A reading half an hour before instant 0, with no sensor values. -/
def sampleReading1 : Reading :=
  ⟨⟨-1800, some 0⟩, none, none, none, none, none, none⟩

/-- The result of `parse_timestamp` always carries offset `+00:00`. -/
theorem parse_ok_off (raw : RawTS) (d : PyDatetime)
    (h : parse_timestamp raw = .ok d) : d.off = some 0 := by
  have hu : ∀ x : PyDatetime, (toUtc x).off = some 0 := by
    intro x
    cases h' : x.off <;> simp [toUtc, h']
  cases raw with
  | null => simp [parse_timestamp] at h
  | pydt w off =>
      simp only [parse_timestamp, Except.ok.injEq] at h
      rw [← h]; exact hu _
  | isoStr w tz =>
      simp only [parse_timestamp, Except.ok.injEq] at h
      rw [← h]; exact hu _
  | badStr s => simp [parse_timestamp] at h
  | otherType t => simp [parse_timestamp] at h

/-- C1: every input accepted by `parse_timestamp` (a string with trailing
`Z`, a string with explicit offset, a naive string, or a native datetime)
yields a timezone-aware absolute UTC instant: trailing `Z` is treated as a
`+00:00` offset, an explicit offset is converted to UTC preserving the
instant, and naive input is assumed to be UTC already; consequently every
stored reading (history and latest) carries a UTC offset — no naive or
offset-ambiguous timestamp is ever stored. -/
theorem parse_timestamp_normalizes_to_utc :
    (∀ raw d, parse_timestamp raw = .ok d → d.off = some 0) ∧
    (∀ w, parse_timestamp (.isoStr w .zSuffix) =
        parse_timestamp (.isoStr w (.withOffset 0))) ∧
    (∀ w m, parse_timestamp (.isoStr w (.withOffset m)) =
        .ok ⟨w - m, some 0⟩) ∧
    (∀ w, parse_timestamp (.isoStr w .naive) = .ok ⟨w, some 0⟩) ∧
    (∀ w m, parse_timestamp (.pydt w (some m)) = .ok ⟨w - m, some 0⟩) ∧
    (∀ w, parse_timestamp (.pydt w none) = .ok ⟨w, some 0⟩) ∧
    (∀ pf hd now p s ts, parse_timestamp p.timestamp = .ok ts →
       (∀ r ∈ s.hist, r.timestamp.off = some 0) →
       (∀ r ∈ (ingest pf hd now p s).2.hist, r.timestamp.off = some 0) ∧
       (∀ r, (ingest pf hd now p s).2.latest = some r →
          r.timestamp.off = some 0)) := by
  refine ⟨parse_ok_off, ?_, ?_, ?_, ?_, ?_, ?_⟩
  · intro w; rfl
  · intro w m; simp [parse_timestamp, fromisoformat, toUtc]
  · intro w; simp [parse_timestamp, fromisoformat, toUtc]
  · intro w m; simp [parse_timestamp, toUtc]
  · intro w; simp [parse_timestamp, toUtc]
  · intro pf hd now p s ts hts hinv
    have hts0 : ts.off = some 0 := parse_ok_off _ _ hts
    constructor
    · intro r hr
      simp only [ingest, hts, prune_history, store_append, List.mem_filter,
        List.mem_append, List.mem_singleton] at hr
      rcases hr.1 with hmem | hmem
      · exact hinv r hmem
      · rw [hmem]; exact hts0
    · intro r hr
      simp only [ingest, hts, store_append, Option.some.injEq] at hr
      rw [← hr]; exact hts0

/-- Witness for C1 at a concrete input: parsing the string with explicit
offset `+00:01:40` at wall clock 100 yields an aware UTC datetime. -/
theorem parse_timestamp_normalizes_to_utc_witness :
    (⟨0, some 0⟩ : PyDatetime).off = some 0 :=
  parse_timestamp_normalizes_to_utc.1 (.isoStr 100 (.withOffset 100))
    ⟨0, some 0⟩ (by decide)

/-- C7: timestamp normalization is an idempotent round-trip: serializing a
normalized timestamp back to an ISO string and normalizing again yields the
same absolute instant. -/
theorem parse_timestamp_roundtrip :
    ∀ raw d, parse_timestamp raw = .ok d →
      parse_timestamp d.isoformat = .ok d := by
  intro raw d h
  have h0 := parse_ok_off raw d h
  obtain ⟨w, off⟩ := d
  simp only at h0
  subst h0
  simp [PyDatetime.isoformat, parse_timestamp, fromisoformat, toUtc]

/-- Witness for C7 at a concrete input: the normalization of
`"...T...Z"` at wall clock 7 re-normalizes to itself. -/
theorem parse_timestamp_roundtrip_witness :
    parse_timestamp (PyDatetime.isoformat ⟨7, some 0⟩) = .ok ⟨7, some 0⟩ :=
  parse_timestamp_roundtrip (.isoStr 7 .zSuffix) ⟨7, some 0⟩ (by decide)

/-- A payload whose timestamp is the ISO string with wall clock 5 and a
trailing `Z`, all sensor fields absent. -/
def okPayload : IngestPayload :=
  mkPayload (.isoStr 5 .zSuffix)

/-- C2: an ingest whose timestamp is missing, unparseable, or of an
unsupported type fails with HTTP 400 and a descriptive message, and the
store and latest pointer are exactly as before; a request with a valid
timestamp fully succeeds: the reading is appended, the history pruned, and
the latest pointer updated, all in one step.  There is no partial-ingest
state. -/
theorem ingest_all_or_nothing :
    parse_timestamp .null = .error "timestamp missing" ∧
    (∀ s, parse_timestamp (.badStr s) =
        .error ("Invalid isoformat string: " ++ s)) ∧
    (∀ t, parse_timestamp (.otherType t) =
        .error ("unsupported timestamp type: " ++ t)) ∧
    (∀ pf hd now p s e, parse_timestamp p.timestamp = .error e →
        ingest pf hd now p s = (.error (400, "Bad timestamp: " ++ e), s)) ∧
    (∀ pf hd now p s ts, parse_timestamp p.timestamp = .ok ts →
        ingest pf hd now p s =
          (.ok ⟨true, 1, mkReading pf p ts,
              (prune_history hd now (s.hist ++ [mkReading pf p ts])).length⟩,
           ⟨prune_history hd now (s.hist ++ [mkReading pf p ts]),
            some (mkReading pf p ts)⟩)) := by
  refine ⟨rfl, fun s => rfl, fun t => rfl, ?_, ?_⟩
  · intro pf hd now p s e h
    simp [ingest, h]
  · intro pf hd now p s ts h
    simp [ingest, h, store_append]

/-- Witness for C2 at a concrete input: ingesting the unparseable
timestamp string "not-a-date" into the empty store returns a 400 error and
leaves the state unchanged. -/
theorem ingest_all_or_nothing_witness :
    ingest pf0 30 0 (mkPayload (.badStr "not-a-date")) ⟨[], none⟩ =
      (.error (400, "Bad timestamp: " ++
          ("Invalid isoformat string: " ++ "not-a-date")), ⟨[], none⟩) :=
  ingest_all_or_nothing.2.2.2.1 pf0 30 0 (mkPayload (.badStr "not-a-date"))
    ⟨[], none⟩ ("Invalid isoformat string: " ++ "not-a-date") rfl

/-- The spec's own coalescing test body: a valid `Z`-suffixed timestamp
and an empty-string legacy `tds` field, all other sensor fields absent. -/
def emptyTdsBody : RawPayload :=
  ⟨.isoStr 5 .zSuffix, .vnull, .vnull, .vnull, .vstr "", .vnull, .vnull,
   .vnull, .vnull, .vnull⟩

/-- C6 (code bug): the claim describes the handler's own
`to_float_or_none`, which maps null, empty-string and malformed text to
absent — never to zero and never to an error — but that string handling is
unreachable for the sensor fields: they are declared `Optional[float]`, so
pydantic rejects an empty-string `tds` with a 422 validation error before
the handler's coalescing runs.  At the spec's own test input (a valid `Z`
timestamp together with `tds` set to the empty string) the request fails
and nothing is stored, where the claim requires success with `tds_us_cm`
absent. -/
theorem bad_optional_field_rejected_before_ingest :
    (∀ pf, validate_opt_float pf (.vstr "") =
        .error "Input should be a valid number") ∧
    (∀ pf, validate_payload pf emptyTdsBody =
        .error "Input should be a valid number") ∧
    (∀ pf hd now s, ingest_route pf hd now emptyTdsBody s =
        (.error (422, "Input should be a valid number"), s)) ∧
    (∀ pf, to_float_or_none pf (.vstr "") = none) ∧
    parse_timestamp emptyTdsBody.timestamp = .ok ⟨5, some 0⟩ :=
  ⟨fun _pf => rfl, fun _pf => rfl, fun _pf _hd _now _s => rfl,
   fun _pf => rfl, rfl⟩

/-- C5: after every successful ingest the latest pointer equals the
just-appended reading, the append step put that reading at the end of the
ordered history (the post-ingest history is the prune of it), querying the
latest route immediately afterwards returns that reading, and when the
reading is within the retention window it is still the last element of the
post-ingest history. -/
theorem ingest_updates_latest_and_appends :
    ∀ pf hd now p s ts, parse_timestamp p.timestamp = .ok ts →
      (store_append s (mkReading pf p ts)).latest = some (mkReading pf p ts) ∧
      (store_append s (mkReading pf p ts)).hist =
        s.hist ++ [mkReading pf p ts] ∧
      (store_append s (mkReading pf p ts)).hist.getLast? =
        some (mkReading pf p ts) ∧
      (ingest pf hd now p s).2.latest = some (mkReading pf p ts) ∧
      (ingest pf hd now p s).2.hist =
        prune_history hd now (store_append s (mkReading pf p ts)).hist ∧
      latest_route (ingest pf hd now p s).2 = readingJson (mkReading pf p ts) ∧
      (now - hd * 86400 ≤ absTime ts →
        (ingest pf hd now p s).2.hist.getLast? = some (mkReading pf p ts)) := by
  intro pf hd now p s ts h
  refine ⟨rfl, rfl, List.getLast?_concat _, ?_, ?_, ?_, ?_⟩
  · simp [ingest, h, store_append]
  · simp [ingest, h, store_append]
  · simp [ingest, h, store_append, latest_route]
  · intro hts
    have hmk : (mkReading pf p ts).timestamp = ts := rfl
    simp only [ingest, h, store_append, prune_history, List.filter_append]
    rw [List.filter_cons, List.filter_nil]
    simp only [hmk, decide_eq_true_eq]
    rw [if_pos hts]
    exact List.getLast?_concat _

/-- Witness for C5 at a concrete input: ingesting a reading with timestamp
5 UTC into the empty store makes the latest route return exactly that
reading. -/
theorem ingest_updates_latest_and_appends_witness :
    latest_route (ingest pf0 30 0 okPayload ⟨[], none⟩).2 =
      readingJson (mkReading pf0 okPayload ⟨5, some 0⟩) :=
  (ingest_updates_latest_and_appends pf0 30 0 okPayload ⟨[], none⟩
    ⟨5, some 0⟩ rfl).2.2.2.2.2.1

/-- C3: `prune_history` keeps exactly the readings whose timestamp is at
or after `now` minus the retention window (each with its multiplicity, in
order, as a sublist), every survivor is within the window, and it runs
synchronously on every successful ingest, right after the append. -/
theorem prune_history_spec :
    (∀ hd now hist r, r ∈ prune_history hd now hist ↔
        r ∈ hist ∧ now - hd * 86400 ≤ absTime r.timestamp) ∧
    (∀ hd now hist r, (prune_history hd now hist).count r =
        if now - hd * 86400 ≤ absTime r.timestamp then hist.count r else 0) ∧
    (∀ hd now hist, (prune_history hd now hist).Sublist hist) ∧
    (∀ hd now hist r, r ∈ prune_history hd now hist →
        now - hd * 86400 ≤ absTime r.timestamp) ∧
    (∀ pf hd now p s ts, parse_timestamp p.timestamp = .ok ts →
        (ingest pf hd now p s).2.hist =
          prune_history hd now (store_append s (mkReading pf p ts)).hist) := by
  refine ⟨?_, ?_, ?_, ?_, ?_⟩
  · intro hd now hist r
    simp [prune_history, List.mem_filter]
  · intro hd now hist r
    by_cases hp : now - hd * 86400 ≤ absTime r.timestamp
    · rw [if_pos hp]
      exact List.count_filter (by simpa using hp)
    · rw [if_neg hp]
      refine List.count_eq_zero.2 (fun hmem => hp ?_)
      have := (List.mem_filter.1 hmem).2
      simpa using this
  · intro hd now hist
    exact List.filter_sublist hist
  · intro hd now hist r hmem
    have := (List.mem_filter.1 hmem).2
    simpa using this
  · intro pf hd now p s ts h
    simp [ingest, h, store_append]

/-- Witness for C3 at a concrete input: the post-ingest history of a
concrete successful ingest is exactly the prune of the appended history. -/
theorem prune_history_spec_witness :
    (ingest pf0 30 0 okPayload ⟨[], none⟩).2.hist =
      prune_history 30 0
        (store_append ⟨[], none⟩ (mkReading pf0 okPayload ⟨5, some 0⟩)).hist :=
  prune_history_spec.2.2.2.2 pf0 30 0 okPayload ⟨[], none⟩ ⟨5, some 0⟩ rfl

/-- A payload whose timestamp is the ISO string with wall clock 0 and a
trailing `Z`, all sensor fields absent; stale relative to a large `now`. -/
def stalePayload : IngestPayload :=
  mkPayload (.isoStr 0 .zSuffix)

/-- C10: pruning touches only the history, never the latest pointer: once
the latest pointer holds a reading, the latest route returns that reading's
JSON (never the no-data shape); after a successful ingest the latest
pointer is the new reading even when the reading itself is outside the
retention window and is therefore pruned out of the history — the latest
reading may be one that is no longer in the history. -/
theorem prune_leaves_latest_unchanged :
    (∀ s r, s.latest = some r → latest_route s = readingJson r) ∧
    (∀ pf hd now p s ts, parse_timestamp p.timestamp = .ok ts →
        (ingest pf hd now p s).2.latest = some (mkReading pf p ts)) ∧
    (∀ pf hd now p s ts, parse_timestamp p.timestamp = .ok ts →
        absTime ts < now - hd * 86400 →
        mkReading pf p ts ∉ (ingest pf hd now p s).2.hist ∧
        latest_route (ingest pf hd now p s).2 =
          readingJson (mkReading pf p ts)) ∧
    (∀ pf hd now p ts, parse_timestamp p.timestamp = .ok ts →
        absTime ts < now - hd * 86400 →
        (ingest pf hd now p ⟨[], none⟩).2 =
          ⟨[], some (mkReading pf p ts)⟩) := by
  have hmk : ∀ pf p ts, (mkReading pf p ts).timestamp = ts := fun _ _ _ => rfl
  refine ⟨?_, ?_, ?_, ?_⟩
  · intro s r h
    simp [latest_route, h]
  · intro pf hd now p s ts h
    simp [ingest, h, store_append]
  · intro pf hd now p s ts h hstale
    constructor
    · intro hmem
      simp only [ingest, h, store_append, prune_history,
        List.mem_filter, hmk, decide_eq_true_eq] at hmem
      exact absurd hmem.2 (not_le.2 hstale)
    · simp [ingest, h, store_append, latest_route]
  · intro pf hd now p ts h hstale
    simp only [ingest, h, store_append, prune_history, List.nil_append]
    rw [List.filter_cons, List.filter_nil]
    simp only [hmk, decide_eq_true_eq]
    rw [if_neg (not_le.2 hstale)]

/-- Witness for C10 at a concrete input: ingesting a reading at instant 0
when `now` is past the 30-day window yields an empty history but a set
latest pointer. -/
theorem prune_leaves_latest_unchanged_witness :
    (ingest pf0 30 2592001 stalePayload ⟨[], none⟩).2 =
      ⟨[], some (mkReading pf0 stalePayload ⟨0, some 0⟩)⟩ :=
  prune_leaves_latest_unchanged.2.2.2 pf0 30 2592001 stalePayload
    ⟨0, some 0⟩ rfl (by decide)

/-- C4 counterexample: as universally stated over every `(hours, limit)`
the claim is false at concrete inputs.  With `limit = 0` and one matching
reading, `/history` returns one row, not at most zero; with `hours = 0`,
it returns a reading from half an hour ago, which does not satisfy
`timestamp ≥ now - 0 hours`. -/
theorem history_rows_counterexample :
    sampleReading0 ∈ history_rows 0 24 0 [sampleReading0] ∧
    ¬ ((history_rows 0 24 0 [sampleReading0]).length ≤ 0) ∧
    sampleReading1 ∈ history_rows 0 0 5 [sampleReading1] ∧
    ¬ (0 - 3600 * 0 ≤ absTime sampleReading1.timestamp) := by
  decide

/-- C4 amended: for every store contents and every `(hours, limit)`, with
the code's effective values `max(1, hours)` and `max(1, min(limit, 20000))`,
`/history` returns a suffix (the tail, i.e. the most recent entries by
position, in store order) of the readings whose timestamp is at or after
`now - max(1, hours)` hours, of length the minimum of the filtered length
and the effective limit; when the filtered readings fit within the
effective limit, all of them are returned. -/
theorem history_rows_clamped :
    ∀ now hours limit hist,
      (history_rows now hours limit hist) <:+
        (history_filtered now hours hist) ∧
      (history_rows now hours limit hist).length =
        min (history_filtered now hours hist).length
          (max 1 (min limit 20000)).toNat ∧
      (∀ r ∈ history_rows now hours limit hist,
          now - 3600 * max 1 hours ≤ absTime r.timestamp) ∧
      ((history_filtered now hours hist).length ≤
          (max 1 (min limit 20000)).toNat →
        history_rows now hours limit hist =
          history_filtered now hours hist) := by
  intro now hours limit hist
  refine ⟨List.drop_suffix _ _, ?_, ?_, ?_⟩
  · simp only [history_rows, List.length_drop]
    omega
  · intro r hr
    have hmem := List.mem_of_mem_drop hr
    have := (List.mem_filter.1 hmem).2
    simpa using this
  · intro hle
    simp only [history_rows]
    rw [Nat.sub_eq_zero_of_le hle, List.drop_zero]

/-- Witness for C4's amended statement at a concrete input: with one
matching reading and `limit = 5`, the whole filtered window is returned. -/
theorem history_rows_clamped_witness :
    history_rows 0 24 5 [sampleReading0] =
      history_filtered 0 24 [sampleReading0] :=
  (history_rows_clamped 0 24 5 [sampleReading0]).2.2.2 (by decide)

/-- C8: `/history` clamps rather than rejects: its result depends only on
the effective window `max(1, hours)` and the effective limit
`max(1, min(limit, 20000))`, which always lies in `[1, 20000]`; values of
`hours` below 1 behave exactly like 1; and the parameter defaults are
`hours = 24`, `limit = 5000`. -/
theorem history_params_clamped :
    (∀ now hours limit hist,
        history_rows now hours limit hist =
          history_rows now (max 1 hours) (max 1 (min limit 20000)) hist) ∧
    (∀ limit : Int, 1 ≤ max 1 (min limit 20000) ∧
        max 1 (min limit 20000) ≤ 20000) ∧
    (∀ now hours limit hist, hours < 1 →
        history_rows now hours limit hist =
          history_rows now 1 limit hist) ∧
    (∀ now hist, history_route_defaults now hist =
        history_route now 24 5000 hist) := by
  refine ⟨?_, ?_, ?_, fun now hist => rfl⟩
  · intro now hours limit hist
    have h1 : max 1 (max 1 hours) = max 1 hours := by omega
    have h2 : max 1 (min (max 1 (min limit 20000)) 20000) =
        max 1 (min limit 20000) := by omega
    simp only [history_rows, history_filtered]
    rw [h1, h2]
  · intro limit
    constructor <;> omega
  · intro now hours limit hist h
    have h1 : max 1 hours = max 1 (1 : Int) := by omega
    simp only [history_rows, history_filtered]
    rw [h1]

/-- Witness for C8 at a concrete input: `hours = 0` behaves exactly like
`hours = 1`. -/
theorem history_params_clamped_witness :
    history_rows 0 0 5 [] = history_rows 0 1 5 [] :=
  history_params_clamped.2.2.1 0 0 5 [] (by decide)

/-- C9 counterexample: the empty-store `/latest` response does not contain
the keys `gh`, `kh`, `light_lux` at all (while a reading's JSON does), so
not every Reading field is present in the no-data shape. -/
theorem latest_route_no_data_counterexample :
    ¬ ("gh" ∈ (latest_route ⟨[], none⟩).map Prod.fst) ∧
    ¬ ("kh" ∈ (latest_route ⟨[], none⟩).map Prod.fst) ∧
    ¬ ("light_lux" ∈ (latest_route ⟨[], none⟩).map Prod.fst) ∧
    "gh" ∈ (readingJson sampleReading0).map Prod.fst := by
  decide

/-- C9 amended: when the store is empty, `/latest` returns an explicit
no-data shape whose keys are exactly the first four Reading fields —
timestamp, temperature_f, tds_us_cm, do_mg_per_l — each null; the
remaining Reading fields (gh, kh, light_lux) are absent from the shape;
it never fails. -/
theorem latest_route_no_data_shape :
    ∀ hist r,
      latest_route ⟨hist, none⟩ =
        [("timestamp", .null), ("temperature_f", .null),
         ("tds_us_cm", .null), ("do_mg_per_l", .null)] ∧
      (latest_route ⟨hist, none⟩).map Prod.fst =
        ((readingJson r).map Prod.fst).take 4 := by
  intro hist r
  exact ⟨rfl, rfl⟩

end ElysiumCloud
